import Mathlib

/-!
Verification of the CSCONSTRUCTION backend against its specification.

The Python sources under `backend/app` are shallowly embedded below.
Conventions used throughout:

* Python `float` values are modelled as exact rationals (`ℚ`); every numeric
  claim under scrutiny is a plain arithmetic identity at which the rational
  model and IEEE semantics agree on the asserted digits.
* SQLite rows are records; tables are lists of records; `AUTOINCREMENT` ids
  are drawn from per-table counters in the `DB` state.
* Python exceptions are an explicit `PyExc` error channel (`Except`).
* Library primitives used by the code (`str.join`, `str.split`, `str.strip`,
  substring tests, SQL `TEXT` comparison) are modelled by small executable
  functions defined here, so that theorems can evaluate on concrete inputs.
-/

set_option autoImplicit false

namespace CSC

/-- Python `sep.join(xs)`: concatenation with `sep` between consecutive items. -/
def pyJoin (sep : String) : List String → String
  | [] => ""
  | [x] => x
  | x :: xs => x ++ sep ++ pyJoin sep xs

/-- Boolean prefix test on character lists. -/
def charsPrefix : List Char → List Char → Bool
  | [], _ => true
  | _ :: _, [] => false
  | a :: as, b :: bs => a == b && charsPrefix as bs

/-- Boolean infix test on character lists: `pat` occurs contiguously in `s`. -/
def charsInfix (pat : List Char) : List Char → Bool
  | [] => pat.isEmpty
  | c :: rest => charsPrefix pat (c :: rest) || charsInfix pat rest

/-- Python `pat in s` (substring containment), on the character lists. -/
def strContains (s pat : String) : Bool :=
  charsInfix pat.toList s.toList

/-- Python `s.lower()` (ASCII case folding, which covers every keyword the
code compares against). -/
def pyLower (s : String) : String :=
  String.mk (s.toList.map Char.toLower)

/-- Auxiliary for `pySplitChar`: accumulates the current field (reversed). -/
def pySplitCharAux (sep : Char) : List Char → List Char → List String
  | [], cur => [String.mk cur.reverse]
  | c :: cs, cur =>
    if c = sep then String.mk cur.reverse :: pySplitCharAux sep cs []
    else pySplitCharAux sep cs (c :: cur)

/-- Python `s.split(sep)` for a one-character separator; `"".split(sep) = [""]`. -/
def pySplitChar (sep : Char) (s : String) : List String :=
  pySplitCharAux sep s.toList []

/-- Whitespace stripping on character lists (both ends). -/
def stripChars (l : List Char) : List Char :=
  ((l.dropWhile Char.isWhitespace).reverse.dropWhile Char.isWhitespace).reverse

/-- Python `s.strip()`: drop whitespace from both ends. -/
def pyStrip (s : String) : String :=
  String.mk (stripChars s.toList)

/-- SQLite `TEXT` comparison (memcmp order on the code points): `a < b`. -/
def charListLt : List Char → List Char → Bool
  | [], [] => false
  | [], _ :: _ => true
  | _ :: _, [] => false
  | a :: as, b :: bs =>
    if a.val < b.val then true
    else if b.val < a.val then false
    else charListLt as bs

/-- SQLite `TEXT` strict order on strings. -/
def strLt (a b : String) : Bool :=
  charListLt a.toList b.toList

/-- SQLite `TEXT` order `a <= b`. -/
def strLe (a b : String) : Bool :=
  strLt a b || a == b

/-- Python `set`-style accumulation keeping first occurrences. -/
def insertUnique (acc : List String) (x : String) : List String :=
  if acc.contains x then acc else acc ++ [x]

/-- Distinct elements of a list in order of first occurrence. -/
def dedup (xs : List String) : List String :=
  xs.foldl insertUnique []

/-- Insertion step for `sortStrings`. -/
def insertSorted (x : String) : List String → List String
  | [] => [x]
  | y :: ys => if strLe x y then x :: y :: ys else y :: insertSorted x ys

/-- Python `sorted` on strings (ascending lexicographic order). -/
def sortStrings (xs : List String) : List String :=
  xs.foldr insertSorted []

/-! The job-costing category classifier, `_job_costing_category_for_head`
(src/backend/app/main.py lines 586-596). -/

/-- Embeds `_job_costing_category_for_head`: lowercase the head, then match the
five categories by substring in priority order. -/
def job_costing_category_for_head (cost_head : String) : String :=
  let h := pyLower cost_head
  if strContains h "labour" || strContains h "labor" then "Labour"
  else if strContains h "material" then "Materials"
  else if strContains h "machinery" || strContains h "equipment" then "Equipment"
  else if strContains h "subcontract" then "Subcontractors"
  else "Other"

/-- The classification rule exactly as the specification words it: an ordered
rule table, first match wins, default `"Other"`. Used to compare the code's
classifier against the spec's description. -/
def specCategoryRules : List (List String × String) :=
  [(["labour", "labor"], "Labour"),
   (["material"], "Materials"),
   (["machinery", "equipment"], "Equipment"),
   (["subcontract"], "Subcontractors")]

/-- Spec-side classifier: first rule whose keyword list has a case-insensitive
substring match, else `"Other"`. -/
def specClassifyHead (head : String) : String :=
  match specCategoryRules.find? (fun r => r.1.any (fun k => strContains (pyLower head) k)) with
  | some r => r.2
  | none => "Other"

theorem classifier_eq_spec_rule (h : String) :
    job_costing_category_for_head h = specClassifyHead h := by
  unfold job_costing_category_for_head specClassifyHead specCategoryRules
  simp only [List.find?, List.any_cons, List.any_nil, Bool.or_false]
  rcases h1 : strContains (pyLower h) "labour" || strContains (pyLower h) "labor" <;>
    rcases h2 : strContains (pyLower h) "material" <;>
      rcases h3 : strContains (pyLower h) "machinery" || strContains (pyLower h) "equipment" <;>
        rcases h4 : strContains (pyLower h) "subcontract" <;>
          simp [h1, h2, h3, h4]

theorem classifier_mem_five (h : String) :
    job_costing_category_for_head h ∈
      ["Labour", "Materials", "Equipment", "Subcontractors", "Other"] := by
  simp only [job_costing_category_for_head]
  split_ifs <;> simp

/-- C3 counterexample: the spec's examples "Ready Mix Concrete" -> Materials and
"Crane Rental" -> Equipment are false on the code: neither head contains any of
the matched keywords ("material", "machinery", "equipment", ...), so both
classify as "Other". -/
theorem c3_classifier_counterexample :
    job_costing_category_for_head "Ready Mix Concrete" = "Other" ∧
    ¬ job_costing_category_for_head "Ready Mix Concrete" = "Materials" ∧
    job_costing_category_for_head "Crane Rental" = "Other" ∧
    ¬ job_costing_category_for_head "Crane Rental" = "Equipment" := by
  refine ⟨by decide, by decide, by decide, by decide⟩

/-- C3 (amended): the classifier maps every head by case-insensitive substring
matching in the stated priority order (formalised as the spec's ordered rule
table `specClassifyHead`, first match wins, default Other); "Labour - Mason
Wages" classifies as Labour, "ABC Subcontractors Pvt Ltd" as Subcontractors,
"Site Office Rent" as Other — but "Ready Mix Concrete" and "Crane Rental"
classify as Other (they contain no keyword), not Materials/Equipment as the
spec's examples say; every head containing "labour" classifies as Labour
(checked first), in particular one containing both "labour" and "material";
and every result is one of the five fixed categories. -/
theorem c3_classifier :
    (∀ h, job_costing_category_for_head h = specClassifyHead h) ∧
    job_costing_category_for_head "Labour - Mason Wages" = "Labour" ∧
    job_costing_category_for_head "Ready Mix Concrete" = "Other" ∧
    job_costing_category_for_head "Crane Rental" = "Other" ∧
    job_costing_category_for_head "ABC Subcontractors Pvt Ltd" = "Subcontractors" ∧
    job_costing_category_for_head "Site Office Rent" = "Other" ∧
    (∀ h, strContains (pyLower h) "labour" = true →
      job_costing_category_for_head h = "Labour") ∧
    (∀ h, job_costing_category_for_head h ∈
      ["Labour", "Materials", "Equipment", "Subcontractors", "Other"]) := by
  refine ⟨classifier_eq_spec_rule, by decide, by decide, by decide, by decide, by decide,
    ?_, classifier_mem_five⟩
  intro h hl
  unfold job_costing_category_for_head
  simp [hl]

/-- C3 witness: instantiates the labour-before-material precedence conjunct of
`c3_classifier` at a head containing both "labour" and "material". -/
theorem c3_classifier_witness :
    strContains (pyLower "Labour cum Material works") "labour" = true ∧
    job_costing_category_for_head "Labour cum Material works" = "Labour" :=
  ⟨by decide, c3_classifier.2.2.2.2.2.2.1 "Labour cum Material works" (by decide)⟩

/-! Data model: the SQLite tables the examined routes touch (db.py schema,
lines 41-103, after the `_migrate_schema` column additions). Tables not read
by any claim under scrutiny (milestones, RA bills, quality tests, ...) are not
carried in the state; the seed rows they receive affect no modelled query. -/

/-- Row of `projects` (post-migration columns included). -/
structure ProjectRow where
  id : Nat
  name : String
  client : String
  location : String
  contract_no : Option String
  start_date : Option String
  end_date : Option String
  total_contract_value : Option Rat
  profit_margin_target : Rat
  created_at : String
  status : Option String
deriving DecidableEq

/-- Row of `daily_logs`. -/
structure DailyLogRow where
  id : Nat
  project_id : Nat
  log_date : String
  weather : Option String
  remarks : Option String
  created_at : String
deriving DecidableEq

/-- Row of `daily_activities`. -/
structure DailyActivityRow where
  id : Nat
  daily_log_id : Nat
  category : String
  activity : String
  uom : String
  quantity : Rat
  labour_count : Int
  machinery : Option String
  notes : Option String
deriving DecidableEq

/-- Row of `cost_entries` (post-migration columns included). -/
structure CostEntryRow where
  id : Nat
  project_id : Nat
  entry_date : String
  cost_head : String
  description : String
  vendor : Option String
  amount : Rat
  quantity : Option Rat
  uom : Option String
  unit_rate : Option Rat
  payment_mode : Option String
  bill_no : Option String
  created_at : String
deriving DecidableEq

/-- Row of `budget_items` (UNIQUE(project_id, cost_head) in the schema). -/
structure BudgetItemRow where
  id : Nat
  project_id : Nat
  cost_head : String
  budget_amount : Rat
  notes : Option String
  created_at : String
deriving DecidableEq

/-- The relational database state: the modelled tables plus the AUTOINCREMENT
counters, a flag recording that `init_db`'s DDL ran, and the clock string
SQLite substitutes for `datetime('now')` defaults. -/
structure DB where
  tablesCreated : Bool
  projects : List ProjectRow
  daily_logs : List DailyLogRow
  daily_activities : List DailyActivityRow
  cost_entries : List CostEntryRow
  budget_items : List BudgetItemRow
  nextProjectId : Nat
  nextLogId : Nat
  nextActivityId : Nat
  nextCostId : Nat
  nextBudgetId : Nat
  now : String
deriving DecidableEq

/-- A fresh database file: no tables, no rows, counters at 1. -/
def emptyDB : DB :=
  { tablesCreated := false, projects := [], daily_logs := [], daily_activities := [],
    cost_entries := [], budget_items := [], nextProjectId := 1, nextLogId := 1,
    nextActivityId := 1, nextCostId := 1, nextBudgetId := 1, now := "2026-01-01T00:00:00" }

/-- Python exceptions surfaced by the embedded code. `httpException` is
FastAPI's `HTTPException` (a subclass of `Exception`, so a bare
`except Exception` catches it too). -/
inductive PyExc where
  | programmingError (msg : String)
  | validationError
  | nameError (missing : String)
  | httpException (status : Nat) (detail : String)
  | dbError (msg : String)
deriving DecidableEq

/-! Persistence layer, db.py. -/

/-- Event trace of one scoped `db_cursor` use, for stating ordering facts. -/
inductive DbEvent where
  | openConn
  | commitTx
  | closeConn
deriving DecidableEq, BEq

/-- Embeds the `db_cursor` context manager (db.py lines 25-33): open a
connection, run the body on it, commit only if the body did not raise, and
always close. A close without commit rolls the working state back, so on an
exception the durable state is the entry state. Returns the body's outcome,
the durable database state, and the connection-event trace. -/
def db_cursor {α : Type} (committed : DB) (body : DB → Except PyExc (α × DB)) :
    Except PyExc α × DB × List DbEvent :=
  match body committed with
  | .ok (a, working) => (.ok a, working, [.openConn, .commitTx, .closeConn])
  | .error e => (.error e, committed, [.openConn, .closeConn])

/-- Embeds `init_db` (db.py 36-528): pure DDL — `CREATE TABLE IF NOT EXISTS`
for every table plus the idempotent `_migrate_schema` column additions. It
creates no row and deletes none; the row model above already carries the
migrated columns. -/
def init_db (db : DB) : DB :=
  { db with tablesCreated := true }

/-- Budget heads seeded by `seed_if_empty` (db.py 597-606). -/
def seedBudgetHeads : List (String × Rat) :=
  [("Materials - Steel", 12000000), ("Materials - Cement/RMC", 9500000),
   ("Labour", 6500000), ("Machinery", 4000000), ("Subcontract", 7500000),
   ("Fuel", 1800000), ("Testing & QA", 600000), ("Overheads", 2200000)]

/-- Cost entries seeded by `seed_if_empty` (db.py 641-649), as
(entry_date, cost_head, description, vendor, amount, quantity, uom, unit_rate,
payment_mode, bill_no). -/
def seedCosts :
    List (String × String × String × String × Rat × Rat × String × Rat × String × String) :=
  [("2026-01-21", "Materials - Steel", "Reinforcement steel for pile cages", "Steel Corp Ltd",
      325000, 6.5, "MT", 50000, "Bank", "BILL-STL-001"),
   ("2026-01-21", "Materials - Cement/RMC", "Ready mix concrete M30", "RMC Suppliers",
      187500, 75, "CuM", 2500, "Bank", "BILL-RMC-001"),
   ("2026-01-21", "Labour", "Pile foundation labour", "Local Contractor",
      89250, 3250, "Hours", 27.46, "Cash", "PAY-001"),
   ("2026-01-21", "Machinery", "Hydraulic piling rig rental", "Equip Rentals",
      250000, 1, "Job", 250000, "Bank", "BILL-EQP-001"),
   ("2026-01-21", "Fuel", "Diesel for DG + equipment", "Fuel Station",
      18000, 200, "Litre", 90, "Cash", "CASH-001"),
   ("2026-01-22", "Testing & QA", "Pile integrity testing", "Test Lab",
      15600, 13, "Nos", 1200, "Bank", "BILL-TST-001"),
   ("2026-01-22", "Overheads", "Site supervision & management", "Internal",
      22500, 75, "Hours", 300, "Bank", "INT-001")]

/-- Activities seeded by `seed_if_empty` (db.py 625-629), as
(category, activity, uom, quantity, labour_count, machinery, notes). -/
def seedActivities : List (String × String × String × Rat × Int × String × String) :=
  [("Pile Foundation", "Boring for pile P-01", "Nos", 1, 18, "Hydraulic Rig", "Depth 18m"),
   ("Pile Foundation", "Rebar cage fabrication", "Kg", 650, 10, "Bar bending yard", "Cage for P-01"),
   ("General", "Site survey & setting out", "Job", 1, 6, "", "")]

/-- Embeds `seed_if_empty` (db.py 571-817): when `projects` holds any row the
function returns at once; otherwise it inserts the one sample project, the
eight budget heads, one daily log with three activities, and seven cost
entries (the further seed rows go to tables outside the modelled state). -/
def seed_if_empty (db : DB) : DB :=
  if db.projects.length > 0 then db
  else
    let pid := db.nextProjectId
    let lid := db.nextLogId
    { db with
      projects := db.projects ++
        [{ id := pid,
           name := "Railway ROB + Bridge Works (Pile Foundation & Sub-Structure)",
           client := "Indian Railways / PWD", location := "Maharashtra",
           contract_no := some "PWD-IR-ROB-001", start_date := some "2026-01-01",
           end_date := some "2026-12-31", total_contract_value := some 100000000,
           profit_margin_target := 12, created_at := db.now, status := some "Planning" }],
      nextProjectId := pid + 1,
      budget_items := db.budget_items ++
        (seedBudgetHeads.enum.map fun p =>
          { id := db.nextBudgetId + p.1, project_id := pid, cost_head := p.2.1,
            budget_amount := p.2.2, notes := some "Seed budget head",
            created_at := db.now }),
      nextBudgetId := db.nextBudgetId + seedBudgetHeads.length,
      daily_logs := db.daily_logs ++
        [{ id := lid, project_id := pid, log_date := "2026-01-21",
           weather := some "Clear",
           remarks := some "Mobilization + initial pile boring started.",
           created_at := db.now }],
      nextLogId := lid + 1,
      daily_activities := db.daily_activities ++
        (seedActivities.enum.map fun p =>
          { id := db.nextActivityId + p.1, daily_log_id := lid, category := p.2.1,
            activity := p.2.2.1, uom := p.2.2.2.1, quantity := p.2.2.2.2.1,
            labour_count := p.2.2.2.2.2.1, machinery := some p.2.2.2.2.2.2.1,
            notes := some p.2.2.2.2.2.2.2 }),
      nextActivityId := db.nextActivityId + seedActivities.length,
      cost_entries := db.cost_entries ++
        (seedCosts.enum.map fun p =>
          { id := db.nextCostId + p.1, project_id := pid, entry_date := p.2.1,
            cost_head := p.2.2.1, description := p.2.2.2.1,
            vendor := some p.2.2.2.2.1, amount := p.2.2.2.2.2.1,
            quantity := some p.2.2.2.2.2.2.1, uom := some p.2.2.2.2.2.2.2.1,
            unit_rate := some p.2.2.2.2.2.2.2.2.1,
            payment_mode := some p.2.2.2.2.2.2.2.2.2.1,
            bill_no := some p.2.2.2.2.2.2.2.2.2.2, created_at := db.now }),
      nextCostId := db.nextCostId + seedCosts.length }

/-- Embeds the startup initialization performed at import and in `_startup`
(main.py 61-64 and 167-169): schema creation followed by seed-if-empty. -/
def startupInit (db : DB) : DB :=
  seed_if_empty (init_db db)

/-! Budget upsert, main.py 359-376. -/

/-- Key predicate of the `UNIQUE(project_id, cost_head)` constraint on
`budget_items`. -/
def budgetKeyMatch (project_id : Nat) (cost_head : String) (r : BudgetItemRow) : Bool :=
  r.project_id == project_id && r.cost_head == cost_head

/-- Embeds the statement `INSERT INTO budget_items ... ON CONFLICT(project_id,
cost_head) DO UPDATE SET budget_amount=excluded.budget_amount,
notes=excluded.notes` (main.py 362-370): on a key conflict the existing row's
amount and notes are overwritten, otherwise a fresh row is inserted. -/
def budgetUpsertTable (db : DB) (project_id : Nat) (cost_head : String)
    (budget_amount : Rat) (notes : Option String) : DB :=
  if db.budget_items.any (budgetKeyMatch project_id cost_head) then
    { db with budget_items := db.budget_items.map fun r =>
        if budgetKeyMatch project_id cost_head r then
          { r with budget_amount := budget_amount, notes := notes }
        else r }
  else
    let newRow : BudgetItemRow :=
      { id := db.nextBudgetId, project_id := project_id, cost_head := cost_head,
        budget_amount := budget_amount, notes := notes, created_at := db.now }
    { db with
      budget_items := db.budget_items ++ [newRow],
      nextBudgetId := db.nextBudgetId + 1 }

/-- Embeds the `upsert_budget` route (main.py 359-376): the upsert statement,
then `SELECT * FROM budget_items WHERE project_id = ? AND cost_head = ?` with
`fetchone` for the response row. -/
def upsert_budget (db : DB) (project_id : Nat) (cost_head : String)
    (budget_amount : Rat) (notes : Option String) :
    Except PyExc BudgetItemRow × DB :=
  let db2 := budgetUpsertTable db project_id cost_head budget_amount notes
  match db2.budget_items.find? (budgetKeyMatch project_id cost_head) with
  | some r => (.ok r, db2)
  | none => (.error PyExc.validationError, db2)

theorem upsert_budget_snd (db : DB) (pid : Nat) (head : String) (amt : Rat)
    (notes : Option String) :
    (upsert_budget db pid head amt notes).2 = budgetUpsertTable db pid head amt notes := by
  unfold upsert_budget
  cases hf : (budgetUpsertTable db pid head amt notes).budget_items.find?
      (budgetKeyMatch pid head) <;>
    simp [hf]

theorem budgetKeyMatch_set (pid : Nat) (head : String) (amt : Rat)
    (notes : Option String) (r : BudgetItemRow) :
    budgetKeyMatch pid head { r with budget_amount := amt, notes := notes } =
      budgetKeyMatch pid head r :=
  rfl

theorem filter_map_budget_update (pid : Nat) (head : String) (amt : Rat)
    (notes : Option String) (l : List BudgetItemRow) :
    (l.map (fun r => if budgetKeyMatch pid head r then
        { r with budget_amount := amt, notes := notes } else r)).filter
      (budgetKeyMatch pid head) =
    (l.filter (budgetKeyMatch pid head)).map (fun r => if budgetKeyMatch pid head r then
        { r with budget_amount := amt, notes := notes } else r) := by
  induction l with
  | nil => rfl
  | cons a t ih =>
    cases hpa : budgetKeyMatch pid head a with
    | true =>
      simp only [List.map_cons, List.filter_cons, hpa, if_true, budgetKeyMatch_set, ih]
    | false =>
      simp only [List.map_cons, List.filter_cons, hpa, Bool.false_eq_true, if_false,
        budgetKeyMatch_set, ih]

theorem budgetUpsertTable_filter (db : DB) (pid : Nat) (head : String) (amt : Rat)
    (notes : Option String)
    (hinv : (db.budget_items.filter (budgetKeyMatch pid head)).length ≤ 1) :
    ∃ i ca,
      (budgetUpsertTable db pid head amt notes).budget_items.filter
          (budgetKeyMatch pid head) =
        [{ id := i, project_id := pid, cost_head := head, budget_amount := amt,
           notes := notes, created_at := ca }] := by
  unfold budgetUpsertTable
  cases hany : db.budget_items.any (budgetKeyMatch pid head) with
  | false =>
    simp only [hany, Bool.false_eq_true, if_false]
    refine ⟨db.nextBudgetId, db.now, ?_⟩
    have hnil : db.budget_items.filter (budgetKeyMatch pid head) = [] := by
      rw [List.filter_eq_nil_iff]
      intro a ha
      have := List.any_eq_false.mp hany a ha
      simpa using this
    rw [List.filter_append, hnil]
    simp [budgetKeyMatch]
  | true =>
    simp only [hany, if_true]
    have hne : db.budget_items.filter (budgetKeyMatch pid head) ≠ [] := by
      rcases List.any_eq_true.mp hany with ⟨a, ha, hpa⟩
      intro hnil
      exact List.filter_eq_nil_iff.mp hnil a ha hpa
    have hpos : 0 < (db.budget_items.filter (budgetKeyMatch pid head)).length :=
      List.length_pos.mpr hne
    have hlen : (db.budget_items.filter (budgetKeyMatch pid head)).length = 1 := by omega
    obtain ⟨r0, hr0⟩ := List.length_eq_one.mp hlen
    have hmem : r0 ∈ db.budget_items.filter (budgetKeyMatch pid head) := by
      rw [hr0]; exact List.mem_singleton_self r0
    have hp0 : budgetKeyMatch pid head r0 = true := (List.mem_filter.mp hmem).2
    refine ⟨r0.id, r0.created_at, ?_⟩
    rw [filter_map_budget_update, hr0]
    have hpid : r0.project_id = pid := by
      have hb : budgetKeyMatch pid head r0 = true := hp0
      unfold budgetKeyMatch at hb
      exact eq_of_beq (Bool.and_eq_true _ _ |>.mp hb).1
    have hhead : r0.cost_head = head := by
      have hb : budgetKeyMatch pid head r0 = true := hp0
      unfold budgetKeyMatch at hb
      exact eq_of_beq (Bool.and_eq_true _ _ |>.mp hb).2
    simp only [List.map_cons, List.map_nil, hp0, if_true]
    cases r0
    simp_all

/-- C5: for every project id and cost head, upserting amount A and then amount
B leaves exactly one budget_items row for the (project_id, cost_head) pair,
with budget_amount B and the second upsert's notes — given the schema's
uniqueness invariant (at most one row per pair) on the starting table. -/
theorem c5_budget_upsert (db : DB) (pid : Nat) (head : String) (a b : Rat)
    (na nb : Option String)
    (hinv : (db.budget_items.filter (budgetKeyMatch pid head)).length ≤ 1) :
    ∃ i ca,
      ((upsert_budget (upsert_budget db pid head a na).2 pid head b nb).2).budget_items.filter
          (budgetKeyMatch pid head) =
        [{ id := i, project_id := pid, cost_head := head, budget_amount := b,
           notes := nb, created_at := ca }] := by
  rw [upsert_budget_snd, upsert_budget_snd]
  obtain ⟨i1, ca1, h1⟩ := budgetUpsertTable_filter db pid head a na hinv
  have hinv2 : ((budgetUpsertTable db pid head a na).budget_items.filter
      (budgetKeyMatch pid head)).length ≤ 1 := by
    simp [h1]
  exact budgetUpsertTable_filter _ pid head b nb hinv2

/-- C5 witness: `c5_budget_upsert` at project 1, cost head "Steel", amounts
100 then 150, on the empty table. -/
theorem c5_budget_upsert_witness :
    (emptyDB.budget_items.filter (budgetKeyMatch 1 "Steel")).length ≤ 1 ∧
    (∃ i ca,
      ((upsert_budget (upsert_budget emptyDB 1 "Steel" 100 none).2 1 "Steel" 150
          (some "revised")).2).budget_items.filter (budgetKeyMatch 1 "Steel") =
        [{ id := i, project_id := 1, cost_head := "Steel", budget_amount := 150,
           notes := some "revised", created_at := ca }]) :=
  ⟨by decide, c5_budget_upsert emptyDB 1 "Steel" 100 150 none (some "revised") (by decide)⟩

theorem seed_skip (db : DB) (h : db.projects ≠ []) : seed_if_empty db = db := by
  unfold seed_if_empty
  rw [if_pos (List.length_pos.mpr h)]

theorem startupInit_projects_one (db : DB) (h : db.projects.length = 1) :
    (startupInit db).projects.length = 1 := by
  have hne : ({ db with tablesCreated := true } : DB).projects ≠ [] := by
    show db.projects ≠ []
    exact List.length_pos.mp (by omega)
  unfold startupInit init_db
  rw [seed_skip _ hne]
  exact h

/-- C4: seeding is at-most-once — `seed_if_empty` is the identity whenever any
project row exists, and N successive runs of startup initialization (schema
creation then seed-if-empty) on a fresh database leave exactly one project row
for every N >= 1. -/
theorem c4_seed_idempotent :
    (∀ db : DB, db.projects ≠ [] → seed_if_empty db = db) ∧
    (∀ n : Nat, 1 ≤ n → (startupInit^[n] emptyDB).projects.length = 1) := by
  refine ⟨seed_skip, ?_⟩
  intro n hn
  induction n with
  | zero => omega
  | succ m ih =>
    rcases Nat.eq_zero_or_pos m with hm | hm
    · subst hm
      rw [Function.iterate_one]
      rfl
    · rw [Function.iterate_succ_apply']
      exact startupInit_projects_one _ (ih hm)

/-- C4 witness: `c4_seed_idempotent` applied to the once-seeded database and to
N = 2 startups. -/
theorem c4_seed_idempotent_witness :
    ((startupInit emptyDB).projects ≠ [] ∧
      seed_if_empty (startupInit emptyDB) = startupInit emptyDB) ∧
    (1 ≤ 2 ∧ (startupInit^[2] emptyDB).projects.length = 1) :=
  ⟨⟨by decide, c4_seed_idempotent.1 (startupInit emptyDB) (by decide)⟩,
   ⟨by decide, c4_seed_idempotent.2 2 (by decide)⟩⟩

/-- C10: the scoped `db_cursor` operation commits exactly once, after the body
and before the close, when the body completes; when the body raises, the
commit is skipped, the connection is still closed, the exception propagates,
and the durable state equals the entry state. -/
theorem c10_db_cursor_atomic {α : Type} (committed : DB)
    (body : DB → Except PyExc (α × DB)) :
    (∀ e, body committed = .error e →
      db_cursor committed body =
        (.error e, committed, [DbEvent.openConn, DbEvent.closeConn]) ∧
      (db_cursor committed body).2.2.count DbEvent.commitTx = 0 ∧
      DbEvent.closeConn ∈ (db_cursor committed body).2.2) ∧
    (∀ a s2, body committed = .ok (a, s2) →
      db_cursor committed body =
        (.ok a, s2, [DbEvent.openConn, DbEvent.commitTx, DbEvent.closeConn]) ∧
      (db_cursor committed body).2.2.count DbEvent.commitTx = 1) := by
  constructor
  · intro e he
    unfold db_cursor
    rw [he]
    exact ⟨rfl, rfl, by simp⟩
  · intro a s2 hok
    unfold db_cursor
    rw [hok]
    exact ⟨rfl, rfl⟩

/-! AI assistant service, services/ai.py. -/

/-- Result record of the assistant (`AiResult`, ai.py 10-13). -/
structure AiResult where
  mode : String
  answer : String
deriving DecidableEq

/-- First line appended by `offline_answer` (ai.py 46). -/
def offlineHeader : String :=
  "Offline mode (no AI key). Here is a structured summary from your data:\n"

/-- Block appended on budget/variance/cost questions (ai.py 50-55). -/
def suggestedChecksBlock : String :=
  "\nSuggested checks:\n- Compare top cost heads vs budget (steel, cement/RMC, machinery, labour)\n- Verify high-value bills and payment mode for cash flow\n- Confirm quantities logged for pile boring/concreting match bills"

/-- Block appended on dpr/daily/progress/today questions (ai.py 56-60). -/
def dprBlock : String :=
  "\nDPR format tip:\n- Mention location/chainage, activity, quantity, manpower, machinery, and constraints."

/-- Keywords triggering the suggested-checks block (ai.py 49). -/
def costKeywords : List String := ["budget", "variance", "over", "under", "cost"]

/-- Keywords triggering the DPR-format-tip block (ai.py 56). -/
def dprKeywords : List String := ["dpr", "daily", "progress", "today"]

/-- Embeds `offline_answer` (ai.py 43-62): header line, the context verbatim,
then the conditional advice blocks, joined by newlines and stripped. -/
def offline_answer (question context : String) : String :=
  let q := pyLower question
  let lines := [offlineHeader, context]
  let lines :=
    if costKeywords.any (fun k => strContains q k) then lines ++ [suggestedChecksBlock]
    else lines
  let lines :=
    if dprKeywords.any (fun k => strContains q k) then lines ++ [dprBlock]
    else lines
  pyStrip (pyJoin "\n" lines)

/-- Embeds `_has_key` (ai.py 16-17) applied to the configured key value. The
`settings` module itself is absent from the source snapshot; per spec §4.1 the
AI provider API key is an optional environment-sourced string, absent meaning
offline mode. Python truthiness of `key and key.strip()`. -/
def hasKey : Option String → Bool
  | none => false
  | some s => !(pyStrip s).isEmpty

/-- Embeds `answer` (ai.py 65-82). The single outbound chat-completion request
is abstracted by its outcome `onlineCall` (an exception, or the stripped
response content); it is consulted only when a key is configured. -/
def answer (apiKey : Option String) (onlineCall : Except PyExc String)
    (question context : String) : AiResult :=
  if !(hasKey apiKey) then
    { mode := "offline", answer := offline_answer question context }
  else
    match onlineCall with
    | .ok content =>
      if content.isEmpty then { mode := "offline", answer := offline_answer question context }
      else { mode := "online", answer := content }
    | .error _ => { mode := "offline", answer := offline_answer question context }

theorem strAppend_assoc (a b c : String) : a ++ b ++ c = a ++ (b ++ c) := by
  cases a; cases b; cases c
  show String.mk _ = String.mk _
  simp [String.append]

theorem strAppend_empty (s : String) : s ++ "" = s := by
  cases s
  show String.mk _ = _
  simp [String.append]

theorem strAppend_toList (s t : String) : (s ++ t).toList = s.toList ++ t.toList := by
  cases s; cases t; rfl

theorem charsPrefix_append_right (p : List Char) :
    ∀ (l t : List Char), charsPrefix p l = true → charsPrefix p (l ++ t) = true := by
  induction p with
  | nil => intro l t _; rfl
  | cons a ps ih =>
    intro l t hp
    cases l with
    | nil => exact absurd hp (by simp [charsPrefix])
    | cons b bs =>
      rw [List.cons_append]
      unfold charsPrefix at hp ⊢
      rcases Bool.and_eq_true _ _ |>.mp hp with ⟨hab, htl⟩
      rw [hab, ih bs t htl]
      rfl

theorem stripChars_header_prefix (rest : List Char) :
    charsPrefix "Offline mode (no AI key).".toList
      (stripChars (offlineHeader.toList ++ rest)) = true := by
  have hleft : (offlineHeader.toList ++ rest).dropWhile Char.isWhitespace =
      offlineHeader.toList ++ rest := by
    rw [List.dropWhile_append]
    have h1 : offlineHeader.toList.dropWhile Char.isWhitespace = offlineHeader.toList := by
      decide
    rw [h1]
    simp [offlineHeader]
  unfold stripChars
  rw [hleft, List.reverse_append, List.dropWhile_append]
  cases hre : (rest.reverse.dropWhile Char.isWhitespace).isEmpty with
  | true =>
    simp only [if_pos rfl, if_true]
    decide
  | false =>
    simp only [Bool.false_eq_true, if_false, List.reverse_append, List.reverse_reverse]
    exact charsPrefix_append_right _ _ _ (by decide)

/-- C8: with no API key configured the assistant answers in offline mode for
every question and context: the result's mode is "offline", its answer is the
offline heuristic's output, that output is the header label followed by the
verbatim context with the "Suggested checks" block appended exactly when the
question case-insensitively contains one of budget/variance/over/under/cost
and the "DPR format tip" block exactly when it contains one of
dpr/daily/progress/today (both may appear, all joined by newlines, stripped),
and the answer begins with the label "Offline mode (no AI key).". -/
theorem c8_ai_offline (q ctx : String) (call : Except PyExc String) :
    (answer none call q ctx).mode = "offline" ∧
    (answer none call q ctx).answer = offline_answer q ctx ∧
    offline_answer q ctx =
      pyStrip (offlineHeader ++ "\n" ++ ctx ++
        (if costKeywords.any (fun k => strContains (pyLower q) k) then
          "\n" ++ suggestedChecksBlock else "") ++
        (if dprKeywords.any (fun k => strContains (pyLower q) k) then
          "\n" ++ dprBlock else "")) ∧
    charsPrefix "Offline mode (no AI key).".toList (offline_answer q ctx).toList = true := by
  have hjoin : offline_answer q ctx =
      pyStrip (offlineHeader ++ "\n" ++ ctx ++
        (if costKeywords.any (fun k => strContains (pyLower q) k) then
          "\n" ++ suggestedChecksBlock else "") ++
        (if dprKeywords.any (fun k => strContains (pyLower q) k) then
          "\n" ++ dprBlock else "")) := by
    unfold offline_answer
    cases hc : costKeywords.any (fun k => strContains (pyLower q) k) <;>
      cases hd : dprKeywords.any (fun k => strContains (pyLower q) k) <;>
        simp only [hc, hd, Bool.false_eq_true, if_false, if_true, List.cons_append,
          List.nil_append, pyJoin, strAppend_empty, strAppend_assoc]
  refine ⟨rfl, rfl, hjoin, ?_⟩
  rw [hjoin]
  unfold pyStrip
  rw [show (offlineHeader ++ "\n" ++ ctx ++
        (if costKeywords.any (fun k => strContains (pyLower q) k) then
          "\n" ++ suggestedChecksBlock else "") ++
        (if dprKeywords.any (fun k => strContains (pyLower q) k) then
          "\n" ++ dprBlock else "")) =
      offlineHeader ++ ("\n" ++ ctx ++
        (if costKeywords.any (fun k => strContains (pyLower q) k) then
          "\n" ++ suggestedChecksBlock else "") ++
        (if dprKeywords.any (fun k => strContains (pyLower q) k) then
          "\n" ++ dprBlock else "")) from by
    simp only [strAppend_assoc]]
  rw [strAppend_toList]
  exact stripChars_header_prefix _

/-- C8 witness: the offline-mode equalities of `c8_ai_offline` evaluated at
the spec's example question (which contains "cost" and "variance") and a small
context. -/
theorem c8_ai_offline_witness :
    (answer none (Except.error (PyExc.dbError "timeout"))
        "What is our cost variance this month?" "Project: ROB").mode = "offline" ∧
    charsPrefix "Offline mode (no AI key).".toList
      (offline_answer "What is our cost variance this month?" "Project: ROB").toList = true :=
  ⟨(c8_ai_offline "What is our cost variance this month?" "Project: ROB"
      (Except.error (PyExc.dbError "timeout"))).1,
   (c8_ai_offline "What is our cost variance this month?" "Project: ROB"
      (Except.error (PyExc.dbError "timeout"))).2.2.2⟩

/-! Job costing, main.py 599-848, with its SQL aggregation queries. -/

/-- Date-window predicate of the optional `entry_date >= from_date` /
`entry_date <= to_date` filters (SQLite TEXT comparison). -/
def inWindow (from_date to_date : Option String) (d : String) : Bool :=
  (match from_date with | none => true | some f => strLe f d) &&
  (match to_date with | none => true | some t => strLe d t)

/-- One row of `SELECT cost_head, SUM(amount) AS amt, SUM(COALESCE(quantity,
0)) AS qty, GROUP_CONCAT(DISTINCT COALESCE(uom, '')) AS uoms ... GROUP BY
cost_head` (main.py 670-681). -/
structure CostAggRow where
  cost_head : String
  amt : Rat
  qty : Rat
  uoms : String
deriving DecidableEq

/-- The grouped cost query: the project's windowed entries grouped by head (in
first-appearance order); `amt` and `qty` sum the group, `uoms` comma-joins the
distinct `COALESCE(uom, '')` values of the group. -/
def queryCostAgg (db : DB) (project_id : Nat) (from_date to_date : Option String) :
    List CostAggRow :=
  let entries := db.cost_entries.filter fun c =>
    c.project_id == project_id && inWindow from_date to_date c.entry_date
  (dedup (entries.map (fun c => c.cost_head))).map fun h =>
    let grp := entries.filter (fun c => c.cost_head == h)
    { cost_head := h,
      amt := (grp.map (fun c => c.amount)).sum,
      qty := (grp.map (fun c => c.quantity.getD 0)).sum,
      uoms := pyJoin "," (dedup (grp.map (fun c => c.uom.getD ""))) }

/-- `SELECT cost_head, budget_amount FROM budget_items WHERE project_id = ?`
(main.py 684-692), as (cost_head, budget_amount) rows. -/
def queryBudgets (db : DB) (project_id : Nat) : List (String × Rat) :=
  (db.budget_items.filter (fun b => b.project_id == project_id)).map
    fun b => (b.cost_head, b.budget_amount)

/-- `planned_by_cat[cat]`: the defaultdict accumulated at main.py 700-702,
expressed as the sum over the budget rows classifying to `cat`. -/
def plannedByCat (budgets : List (String × Rat)) (cat : String) : Rat :=
  ((budgets.filter (fun b => job_costing_category_for_head b.1 == cat)).map
    (fun b => b.2)).sum

/-- `actual_by_cat[cat]` (main.py 704-706). -/
def actualByCat (costs : List CostAggRow) (cat : String) : Rat :=
  ((costs.filter (fun c => job_costing_category_for_head c.cost_head == cat)).map
    (fun c => c.amt)).sum

/-- `qty_by_cat[cat]` (main.py 704-707). -/
def qtyByCat (costs : List CostAggRow) (cat : String) : Rat :=
  ((costs.filter (fun c => job_costing_category_for_head c.cost_head == cat)).map
    (fun c => c.qty)).sum

/-- `uoms_by_cat[cat]` (main.py 708-712): split each group's `uoms` on commas,
strip, drop empties; the Python set is modelled as the first-occurrence list. -/
def uomsByCat (costs : List CostAggRow) (cat : String) : List String :=
  dedup ((costs.filter (fun c => job_costing_category_for_head c.cost_head == cat)).flatMap
    (fun c => ((pySplitChar ',' c.uoms).map pyStrip).filter (fun u => !u.isEmpty)))

/-- `categories_order` (main.py 714). -/
def categories_order : List String :=
  ["Labour", "Materials", "Equipment", "Subcontractors", "Other"]

/-- The `JobCostingCategory` schema (schemas.py 110-118). -/
structure JobCostingCategory where
  category : String
  planned_cost : Rat
  actual_cost : Rat
  quantity : Option Rat
  uom : Option String
  unit_cost : Option Rat
  percent_of_total_actual : Rat
  percent_over_under_budget : Option Rat
deriving DecidableEq

/-- The `cats` list built at main.py 721-749 (and, identically, at main.py
533-565 inside the dashboard summary): one entry per fixed category; `uom` is
exposed only when exactly one distinct unit was used; `unit_cost` when
quantity > 0; percent over/under only when a budget was planned. The
`sum(actual_by_cat.values())` total equals the sum of all grouped rows'
amounts, each row landing in exactly one category. -/
def buildCats (costs : List CostAggRow) (budgets : List (String × Rat)) :
    List JobCostingCategory :=
  let total_actual := (costs.map (fun c => c.amt)).sum
  categories_order.map fun cat =>
    let planned := plannedByCat budgets cat
    let actual := actualByCat costs cat
    let qty := qtyByCat costs cat
    let uom_set := uomsByCat costs cat
    { category := cat,
      planned_cost := planned,
      actual_cost := actual,
      quantity := if qty > 0 then some qty else none,
      uom := if uom_set.length == 1 then uom_set.head? else none,
      unit_cost := if qty > 0 then some (actual / qty) else none,
      percent_of_total_actual := if total_actual > 0 then actual / total_actual * 100 else 0,
      percent_over_under_budget :=
        if planned > 0 then some ((actual - planned) / planned * 100) else none }

/-- The `JobCostingSummary` response schema (schemas.py 121-131). -/
structure JobCostingSummary where
  project_id : Nat
  project_name : String
  client : String
  location : String
  from_date : Option String
  to_date : Option String
  total_planned_cost : Rat
  total_actual_cost : Rat
  percent_over_under_budget : Option Rat
  categories : List JobCostingCategory
deriving DecidableEq

/-- Keyword arguments of one `JobCostingSummary(...)` construction; `none`
means the keyword was not passed. `total_budget` and `total_variance` are
keywords some call sites pass although the schema declares no such fields —
pydantic ignores unknown keywords. -/
structure JobCostingSummaryArgs where
  project_id : Option Nat
  project_name : Option String
  client : Option String
  location : Option String
  from_date : Option (Option String)
  to_date : Option (Option String)
  total_planned_cost : Option Rat
  total_actual_cost : Option Rat
  percent_over_under_budget : Option (Option Rat)
  categories : Option (List JobCostingCategory)
  total_budget : Option Rat
  total_variance : Option Rat

/-- Pydantic validation of a `JobCostingSummary(...)` call: each schema field
without a default (`project_id`, `project_name`, `client`, `location`,
`total_planned_cost`, `total_actual_cost`, `categories`) must have been
passed, fields with `None` defaults take them, unknown keywords are dropped. -/
def validateJobCostingSummary (a : JobCostingSummaryArgs) :
    Except PyExc JobCostingSummary :=
  match a.project_id, a.project_name, a.client, a.location,
      a.total_planned_cost, a.total_actual_cost, a.categories with
  | some pid, some pname, some cl, some loc, some tpc, some tac, some cats =>
    .ok { project_id := pid, project_name := pname, client := cl, location := loc,
          from_date := a.from_date.getD none, to_date := a.to_date.getD none,
          total_planned_cost := tpc, total_actual_cost := tac,
          percent_over_under_budget := a.percent_over_under_budget.getD none,
          categories := cats }
  | _, _, _, _, _, _, _ => .error PyExc.validationError

/-- The illustrative category list of the mock fallback (main.py 610-651,
repeated at 793-834). -/
def mockJobCostingCategories : List JobCostingCategory :=
  [{ category := "Labour", planned_cost := 3250000, actual_cost := 3779500,
     quantity := some 3250, uom := some "Hours", unit_cost := some 1161.54,
     percent_of_total_actual := 43.73, percent_over_under_budget := some 16.15 },
   { category := "Materials", planned_cost := 3200000, actual_cost := 3315000,
     quantity := some 81.5, uom := some "MT/CuM", unit_cost := none,
     percent_of_total_actual := 38.37, percent_over_under_budget := some 3.59 },
   { category := "Equipment", planned_cost := 1500000, actual_cost := 0,
     quantity := none, uom := none, unit_cost := none,
     percent_of_total_actual := 0, percent_over_under_budget := some (-100) },
   { category := "Subcontractors", planned_cost := 400000, actual_cost := 1547540,
     quantity := none, uom := none, unit_cost := none,
     percent_of_total_actual := 17.91, percent_over_under_budget := some 286.89 }]

/-- Keyword arguments of the two mock `JobCostingSummary(...)` constructions
(main.py 603-652 and 786-835): they pass `total_budget` and `total_variance`
(ignored by the schema) and omit the schema-required `client`, `location` and
`total_planned_cost`. -/
def mockJobCostingArgs (project_id : Nat) : JobCostingSummaryArgs :=
  { project_id := some project_id,
    project_name := some "Railway ROB + Bridge Works (Pile Foundation & Sub-Structure)",
    client := none, location := none, from_date := none, to_date := none,
    total_planned_cost := none, total_actual_cost := some 8642040,
    percent_over_under_budget := some (some 3.87),
    categories := some mockJobCostingCategories,
    total_budget := some 8350000, total_variance := some 32040 }

/-- A sqlite3 cursor: whether its connection is still open, and the database
snapshot it reads. Any operation on the cursor of a closed connection raises
`sqlite3.ProgrammingError`. -/
structure Cursor where
  connOpen : Bool
  snapshot : DB

/-- Runs one execute/fetch on the cursor. -/
def Cursor.runQuery {α : Type} (cur : Cursor) (q : DB → α) : Except PyExc α :=
  if cur.connOpen then .ok (q cur.snapshot)
  else .error (PyExc.programmingError "Cannot operate on a closed database")

/-- Category list of the reachable response construction (main.py 762-781):
iterates `sorted(set(planned_by_cat) | set(actual_by_cat))` — the categories
touched by the two accumulation loops; `uom` takes the first element of the
uom set whenever it is non-empty, `unit_cost` requires qty > 0 and actual > 0,
and percent over/under falls back to 0 rather than being absent. -/
def jobCostingResponseCats (costs : List CostAggRow) (budgets : List (String × Rat)) :
    List JobCostingCategory :=
  let total_actual := (costs.map (fun c => c.amt)).sum
  let touched := sortStrings (dedup
    ((budgets.map (fun b => job_costing_category_for_head b.1)) ++
     (costs.map (fun c => job_costing_category_for_head c.cost_head))))
  touched.map fun cat =>
    let planned := plannedByCat budgets cat
    let actual := actualByCat costs cat
    let qty := qtyByCat costs cat
    let uom_set := uomsByCat costs cat
    { category := cat, planned_cost := planned, actual_cost := actual,
      quantity := if qty > 0 then some qty else none,
      uom := uom_set.head?,
      unit_cost := if qty > 0 && actual > 0 then some (actual / qty) else none,
      percent_of_total_actual := if total_actual > 0 then actual / total_actual * 100 else 0,
      percent_over_under_budget :=
        some (if planned > 0 then (actual - planned) / planned * 100 else 0) }

/-- Keyword arguments of the reachable `return JobCostingSummary(...)`
(main.py 752-781): `total_budget` and `total_variance` are passed although the
schema has no such fields, while the schema-required `client`, `location` and
`total_planned_cost` are not passed. -/
def jobCostingResponseArgs (project_id : Nat) (name : String)
    (costs : List CostAggRow) (budgets : List (String × Rat)) : JobCostingSummaryArgs :=
  let total_planned := (budgets.map (fun b => b.2)).sum
  let total_actual := (costs.map (fun c => c.amt)).sum
  { project_id := some project_id, project_name := some name,
    client := none, location := none, from_date := none, to_date := none,
    total_planned_cost := none,
    total_actual_cost := some total_actual,
    percent_over_under_budget := some (some
      (if total_planned > 0 then (total_actual - total_planned) / total_planned * 100 else 0)),
    categories := some (jobCostingResponseCats costs budgets),
    total_budget := some total_planned,
    total_variance := some (total_actual - total_planned) }

/-- Embeds the `try:` body of `job_costing` (main.py 654-782). The
`with db_cursor() as cur:` block at 664-665 encloses only the
`SELECT * FROM projects` execute; at the block's end the connection is
committed and closed, so `proj = cur.fetchone()` on line 666 and all later
cursor calls run on a closed connection. Lines 714-749 also build a `cats`
list (`buildCats`) that the reachable return at 752-781 does not use. -/
def job_costing_try (db : DB) (project_id : Nat) (from_date to_date : Option String) :
    Except PyExc JobCostingSummary := do
  let cur : Cursor := { connOpen := false, snapshot := db }
  let proj ← cur.runQuery (fun d => d.projects.find? (fun p => p.id == project_id))
  match proj with
  | none => throw (PyExc.httpException 404 "Project not found")
  | some projRow => do
    let costs ← cur.runQuery (fun d => queryCostAgg d project_id from_date to_date)
    let budgets ← cur.runQuery (fun d => queryBudgets d project_id)
    validateJobCostingSummary
      (jobCostingResponseArgs project_id projRow.name costs budgets)

/-- Embeds the `job_costing` route (main.py 599-848). When the availability
flag is down the mock summary is constructed outside any `try`, so its
validation error propagates; otherwise the `try` body runs and any exception
in it — the closed-cursor `ProgrammingError`, the 404 `HTTPException`, a
validation error — is caught by the bare `except` at 783, whose own mock
construction (786-835) raises in turn. The `return` at 837-848 is unreachable
(both the try and the except end in return/raise). -/
def job_costing (dbAvailable : Bool) (db : DB) (project_id : Nat)
    (from_date to_date : Option String) : Except PyExc JobCostingSummary :=
  if !dbAvailable then validateJobCostingSummary (mockJobCostingArgs project_id)
  else
    match job_costing_try db project_id from_date to_date with
    | .ok s => .ok s
    | .error _ => validateJobCostingSummary (mockJobCostingArgs project_id)

/-- The evidently intended job-costing handler, reconstructed from the dead
code: the `with` block extended over every query (cursor open), the `cats` of
main.py 721-749, and the response of the unreachable lines 837-848, which
passes every schema-required field (`client`, `location`,
`total_planned_cost`, the windowed dates) and uses the 717-719 percent rule
(absent when no budget is planned). -/
def job_costing_intended (db : DB) (project_id : Nat)
    (from_date to_date : Option String) : Except PyExc JobCostingSummary := do
  let cur : Cursor := { connOpen := true, snapshot := db }
  let proj ← cur.runQuery (fun d => d.projects.find? (fun p => p.id == project_id))
  match proj with
  | none => throw (PyExc.httpException 404 "Project not found")
  | some projRow => do
    let costs ← cur.runQuery (fun d => queryCostAgg d project_id from_date to_date)
    let budgets ← cur.runQuery (fun d => queryBudgets d project_id)
    let total_planned := (budgets.map (fun b => b.2)).sum
    let total_actual := (costs.map (fun c => c.amt)).sum
    validateJobCostingSummary
      { project_id := some project_id, project_name := some projRow.name,
        client := some projRow.client, location := some projRow.location,
        from_date := some from_date, to_date := some to_date,
        total_planned_cost := some total_planned,
        total_actual_cost := some total_actual,
        percent_over_under_budget := some
          (if total_planned > 0 then
            some ((total_actual - total_planned) / total_planned * 100) else none),
        categories := some (buildCats costs budgets),
        total_budget := none, total_variance := none }

/-- Failing input for C1/C2: a database holding one project (id 1) whose
budget maps the head "Labour" (category Labour) to 3,250,000 and whose cost
entries for that head sum to 3,779,500 with total quantity 3,250, single unit
"Hours". -/
def projC1 : ProjectRow :=
  { id := 1, name := "ROB Project", client := "Indian Railways",
    location := "Maharashtra", contract_no := none, start_date := some "2026-01-01",
    end_date := some "2026-12-31", total_contract_value := some 100000000,
    profit_margin_target := 12, created_at := "2026-01-01T00:00:00",
    status := some "Execution" }

/-- First Labour cost entry of the C1 input. -/
def costC1a : CostEntryRow :=
  { id := 1, project_id := 1, entry_date := "2026-01-15", cost_head := "Labour",
    description := "Mason work", vendor := none, amount := 3000000,
    quantity := some 2500, uom := some "Hours", unit_rate := none,
    payment_mode := none, bill_no := none, created_at := "" }

/-- Second Labour cost entry of the C1 input. -/
def costC1b : CostEntryRow :=
  { id := 2, project_id := 1, entry_date := "2026-01-20", cost_head := "Labour",
    description := "Carpenter work", vendor := none, amount := 779500,
    quantity := some 750, uom := some "Hours", unit_rate := none,
    payment_mode := none, bill_no := none, created_at := "" }

/-- Labour budget row of the C1 input. -/
def budgetC1 : BudgetItemRow :=
  { id := 1, project_id := 1, cost_head := "Labour",
    budget_amount := 3250000, notes := none, created_at := "" }

def dbC1 : DB :=
  { tablesCreated := true, projects := [projC1], daily_logs := [],
    daily_activities := [], cost_entries := [costC1a, costC1b],
    budget_items := [budgetC1], nextProjectId := 2, nextLogId := 1,
    nextActivityId := 1, nextCostId := 3, nextBudgetId := 2,
    now := "2026-02-01T00:00:00" }

theorem classify_Labour : job_costing_category_for_head "Labour" = "Labour" := by decide

theorem dbC1_projects : dbC1.projects = [projC1] := rfl

theorem projC1_id : projC1.id = 1 := rfl

theorem projC1_name : projC1.name = "ROB Project" := rfl

theorem projC1_client : projC1.client = "Indian Railways" := rfl

theorem projC1_location : projC1.location = "Maharashtra" := rfl

theorem dedup_Labour : dedup ["Labour", "Labour"] = ["Labour"] := by decide

theorem dedup_Hours : dedup ["Hours", "Hours"] = ["Hours"] := by decide

theorem queryBudgets_dbC1 : queryBudgets dbC1 1 = [("Labour", 3250000)] := by
  norm_num [queryBudgets, dbC1, budgetC1, List.filter_cons, List.filter_nil]

/-- The single grouped cost row of the C1 input. -/
def costAggC1 : CostAggRow :=
  { cost_head := "Labour", amt := 3779500, qty := 3250, uoms := "Hours" }

theorem queryCostAgg_dbC1 : queryCostAgg dbC1 1 none none = [costAggC1] := by
  norm_num [queryCostAgg, dbC1, costC1a, costC1b, costAggC1, inWindow, dedup_Labour,
    dedup_Hours, List.filter_cons, List.filter_nil, pyJoin]

theorem labour_ne_materials : (("Labour" : String) = "Materials") = False :=
  eq_false (by decide)

theorem labour_ne_equipment : (("Labour" : String) = "Equipment") = False :=
  eq_false (by decide)

theorem labour_ne_subcontractors : (("Labour" : String) = "Subcontractors") = False :=
  eq_false (by decide)

theorem labour_ne_other : (("Labour" : String) = "Other") = False :=
  eq_false (by decide)

theorem materials_ne_labour : (("Materials" : String) = "Labour") = False :=
  eq_false (by decide)

theorem equipment_ne_labour : (("Equipment" : String) = "Labour") = False :=
  eq_false (by decide)

theorem subcontractors_ne_labour : (("Subcontractors" : String) = "Labour") = False :=
  eq_false (by decide)

theorem other_ne_labour : (("Other" : String) = "Labour") = False :=
  eq_false (by decide)

theorem costAggC1_head : costAggC1.cost_head = "Labour" := rfl

theorem costAggC1_amt : costAggC1.amt = 3779500 := rfl

theorem costAggC1_qty : costAggC1.qty = 3250 := rfl

theorem uoms_C1_Labour : uomsByCat [costAggC1] "Labour" = ["Hours"] := by decide

theorem uoms_C1_Materials : uomsByCat [costAggC1] "Materials" = [] := by decide

theorem uoms_C1_Equipment : uomsByCat [costAggC1] "Equipment" = [] := by decide

theorem uoms_C1_Subcontractors : uomsByCat [costAggC1] "Subcontractors" = [] := by decide

theorem uoms_C1_Other : uomsByCat [costAggC1] "Other" = [] := by decide

theorem buildCats_C1 :
    buildCats [costAggC1] [("Labour", 3250000)] =
      [{ category := "Labour", planned_cost := 3250000, actual_cost := 3779500,
         quantity := some 3250, uom := some "Hours", unit_cost := some (15118 / 13),
         percent_of_total_actual := 100, percent_over_under_budget := some (1059 / 65) },
       { category := "Materials", planned_cost := 0, actual_cost := 0, quantity := none,
         uom := none, unit_cost := none, percent_of_total_actual := 0,
         percent_over_under_budget := none },
       { category := "Equipment", planned_cost := 0, actual_cost := 0, quantity := none,
         uom := none, unit_cost := none, percent_of_total_actual := 0,
         percent_over_under_budget := none },
       { category := "Subcontractors", planned_cost := 0, actual_cost := 0, quantity := none,
         uom := none, unit_cost := none, percent_of_total_actual := 0,
         percent_over_under_budget := none },
       { category := "Other", planned_cost := 0, actual_cost := 0, quantity := none,
         uom := none, unit_cost := none, percent_of_total_actual := 0,
         percent_over_under_budget := none }] := by
  norm_num [buildCats, categories_order, plannedByCat, actualByCat, qtyByCat,
    costAggC1_head, costAggC1_amt, costAggC1_qty, classify_Labour, uoms_C1_Labour,
    uoms_C1_Materials, uoms_C1_Equipment, uoms_C1_Subcontractors, uoms_C1_Other,
    labour_ne_materials, labour_ne_equipment, labour_ne_subcontractors, labour_ne_other,
    List.filter_cons, List.filter_nil, List.sum_cons, List.sum_nil]

/-- C1 (code bug): on the described data the job-costing route returns none of
the computed Labour figures — the `fetchone` on the closed cursor raises, the
bare `except` catches it, and the fallback's own `JobCostingSummary(...)`
omits the schema-required `client`, `location` and `total_planned_cost`
fields, so the route ends in an unhandled validation error. The evidently
intended handler (the dead code, with the cursor kept open) does report
Labour unit_cost = 3779500/3250 and percent_over_under_budget =
(3779500-3250000)/3250000*100; those quotients are exactly 15118/13 =
1162.9230... (not the 1163.0769... the spec's aside claims) and 1059/65 =
16.2923.... -/
theorem c1_job_costing_arithmetic :
    job_costing true dbC1 1 none none = .error PyExc.validationError ∧
    job_costing_try dbC1 1 none none =
      .error (PyExc.programmingError "Cannot operate on a closed database") ∧
    (job_costing_intended dbC1 1 none none).map
        (fun s => (s.categories.filter (fun c => c.category == "Labour")).map
          (fun c => (c.planned_cost, c.actual_cost, c.quantity, c.uom, c.unit_cost,
            c.percent_over_under_budget))) =
      .ok [(3250000, 3779500, some 3250, some "Hours", some ((3779500 : ℚ) / 3250),
        some (((3779500 : ℚ) - 3250000) / 3250000 * 100))] ∧
    (3779500 : ℚ) / 3250 = 15118 / 13 ∧
    ((3779500 : ℚ) - 3250000) / 3250000 * 100 = 1059 / 65 := by
  refine ⟨rfl, rfl, ?_, by norm_num, by norm_num⟩
  norm_num [job_costing_intended, Cursor.runQuery, dbC1_projects, projC1_id,
    projC1_name, projC1_client, projC1_location, List.find?,
    queryCostAgg_dbC1, queryBudgets_dbC1, buildCats_C1, validateJobCostingSummary,
    Except.map, Bind.bind, Except.bind, List.filter_cons, List.filter_nil,
    List.sum_cons, List.sum_nil, materials_ne_labour, equipment_ne_labour,
    subcontractors_ne_labour, other_ne_labour]

/-- C2 (code bug): for a project id absent from the table the job-costing
route does not signal Not-Found. The closed-cursor `fetchone` raises before
the id is inspected; even otherwise the bare `except` would swallow the
`HTTPException(404)`; and the mock fallback built in the handler fails
validation, so the caller gets an unhandled validation error (a 500), never a
404. The intended handler raises the 404. -/
theorem c2_job_costing_not_found :
    job_costing true dbC1 999 none none = .error PyExc.validationError ∧
    job_costing false dbC1 999 none none = .error PyExc.validationError ∧
    job_costing_intended dbC1 999 none none =
      .error (PyExc.httpException 404 "Project not found") := by
  refine ⟨rfl, rfl, by rfl⟩

/-! Dashboard summary, main.py 380-583. -/

/-- The `DashboardSummary` response schema (schemas.py 80-95); the Python
dicts keyed by cost head are association lists in insertion order. -/
structure DashboardSummary where
  project_id : Nat
  from_date : Option String
  to_date : Option String
  total_cost : Rat
  cost_by_head : List (String × Rat)
  total_budget : Rat
  budget_by_head : List (String × Rat)
  variance_by_head : List (String × Rat)
  percent_over_under_budget : Option Rat
  total_contract_value : Option Rat
  profit_margin_target : Rat
  current_profit_margin : Option Rat
  days_remaining : Option Int
  job_costing_categories : List JobCostingCategory
  recent_logs : List DailyLogRow
deriving DecidableEq

/-- `SELECT cost_head, SUM(amount) ... GROUP BY cost_head` over the windowed
entries (main.py 417-425). -/
def queryCostSum (db : DB) (project_id : Nat) (from_date to_date : Option String) :
    List (String × Rat) :=
  let entries := db.cost_entries.filter fun c =>
    c.project_id == project_id && inWindow from_date to_date c.entry_date
  (dedup (entries.map (fun c => c.cost_head))).map fun h =>
    (h, ((entries.filter (fun c => c.cost_head == h)).map (fun c => c.amount)).sum)

/-- Ordering `ORDER BY log_date DESC, id DESC` (main.py 446-452). -/
def logDescBefore (a b : DailyLogRow) : Bool :=
  strLt b.log_date a.log_date || (b.log_date == a.log_date && Nat.ble b.id a.id)

/-- Insertion step for `sortLogsDesc`. -/
def insertLogDesc (x : DailyLogRow) : List DailyLogRow → List DailyLogRow
  | [] => [x]
  | y :: ys => if logDescBefore x y then x :: y :: ys else y :: insertLogDesc x ys

/-- Sorts daily logs by date descending then id descending. -/
def sortLogsDesc (xs : List DailyLogRow) : List DailyLogRow :=
  xs.foldr insertLogDesc []

/-- Python `dict.get(k, d)` on an association list. -/
def lookupOr (l : List (String × Rat)) (k : String) (d : Rat) : Rat :=
  match l.find? (fun p => p.1 == k) with
  | some p => p.2
  | none => d

/-- Embeds the `summary` route as shipped (main.py 380-583): after the project
lookup (404 when the id is absent) and the first block of queries, the second
`with db_cursor()` block calls `rows_to_dict` (line 501) — a name that exists
nowhere (`app.utils` defines `row_to_dict` and `rows_to_dicts`, and line 486
imports only `row_to_dict`) — so every request for an existing project raises
`NameError`, an unhandled 500; the aggregation computed up to line 481 is
discarded. -/
def summary (db : DB) (project_id : Nat) (from_date to_date : Option String) :
    Except PyExc DashboardSummary := do
  let cur : Cursor := { connOpen := true, snapshot := db }
  let proj ← cur.runQuery (fun d => d.projects.find? (fun p => p.id == project_id))
  match proj with
  | none => throw (PyExc.httpException 404 "Project not found")
  | some _ => throw (PyExc.nameError "rows_to_dict")

/-- The summary handler with the undefined name repaired (`rows_to_dict` read
as the `rows_to_dicts` the utils module exports), i.e. the computation main.py
380-583 performs; used to state what the route was specified to return.
`days_remaining` depends on the wall clock: `clockDays e` stands for
`(datetime.fromisoformat(e) - datetime.now()).days` when `e` parses and lies
in the future, `none` otherwise (main.py 473-481); the truthiness test on the
stored end date is kept. `float(... or 10.0)` on the profit-margin target
turns a 0 (or NULL, unrepresented here) into 10.0 (main.py 578). -/
def summary_fixed (clockDays : String → Option Int) (db : DB) (project_id : Nat)
    (from_date to_date : Option String) : Except PyExc DashboardSummary := do
  let cur : Cursor := { connOpen := true, snapshot := db }
  let proj ← cur.runQuery (fun d => d.projects.find? (fun p => p.id == project_id))
  match proj with
  | none => throw (PyExc.httpException 404 "Project not found")
  | some projRow => do
    let cost_by_head ← cur.runQuery (fun d => queryCostSum d project_id from_date to_date)
    let budget_by_head ← cur.runQuery (fun d => queryBudgets d project_id)
    let recent_logs ← cur.runQuery (fun d =>
      (sortLogsDesc (d.daily_logs.filter (fun l =>
        l.project_id == project_id && inWindow from_date to_date l.log_date))).take 10)
    let total_cost := (cost_by_head.map (fun p => p.2)).sum
    let total_budget := (budget_by_head.map (fun p => p.2)).sum
    let all_heads := sortStrings (dedup
      ((budget_by_head.map (fun p => p.1)) ++ (cost_by_head.map (fun p => p.1))))
    let variance_by_head := all_heads.map fun h =>
      (h, lookupOr cost_by_head h 0 - lookupOr budget_by_head h 0)
    let percent_over_under :=
      if total_budget > 0 then some ((total_cost - total_budget) / total_budget * 100)
      else none
    let total_contract_value := projRow.total_contract_value.getD 0
    let current_profit_margin :=
      if total_contract_value > 0 then
        some ((total_contract_value - total_cost) / total_contract_value * 100)
      else none
    let days_remaining :=
      match projRow.end_date with
      | none => none
      | some e => if e.isEmpty then none else clockDays e
    let costs ← cur.runQuery (fun d => queryCostAgg d project_id from_date to_date)
    let budgets ← cur.runQuery (fun d => queryBudgets d project_id)
    .ok { project_id := project_id, from_date := from_date, to_date := to_date,
          total_cost := total_cost, cost_by_head := cost_by_head,
          total_budget := total_budget, budget_by_head := budget_by_head,
          variance_by_head := variance_by_head,
          percent_over_under_budget := percent_over_under,
          total_contract_value :=
            if total_contract_value > 0 then some total_contract_value else none,
          profit_margin_target :=
            if projRow.profit_margin_target = 0 then 10 else projRow.profit_margin_target,
          current_profit_margin := current_profit_margin,
          days_remaining := days_remaining,
          job_costing_categories := buildCats costs budgets,
          recent_logs := recent_logs }

/-- Project row of the C6/C7 failing input: contract value 100,000,000. -/
def projS : ProjectRow :=
  { id := 1, name := "ROB Project", client := "Indian Railways",
    location := "Maharashtra", contract_no := none, start_date := some "2026-01-01",
    end_date := some "2026-12-31", total_contract_value := some 100000000,
    profit_margin_target := 12, created_at := "2026-01-01T00:00:00",
    status := some "Execution" }

/-- The same project without a contract value. -/
def projS0 : ProjectRow :=
  { projS with total_contract_value := none }

/-- Labour cost entry of the C6/C7 input (4,000,000, head also budgeted). -/
def costS1 : CostEntryRow :=
  { id := 1, project_id := 1, entry_date := "2026-02-01", cost_head := "Labour",
    description := "Labour cost", vendor := none, amount := 4000000,
    quantity := none, uom := none, unit_rate := none,
    payment_mode := none, bill_no := none, created_at := "" }

/-- Fuel cost entry of the C6/C7 input (8,000,000, head absent from budgets). -/
def costS2 : CostEntryRow :=
  { id := 2, project_id := 1, entry_date := "2026-02-02", cost_head := "Fuel",
    description := "Fuel cost", vendor := none, amount := 8000000,
    quantity := none, uom := none, unit_rate := none,
    payment_mode := none, bill_no := none, created_at := "" }

/-- Labour budget row of the C6/C7 input (5,000,000). -/
def budgetS : BudgetItemRow :=
  { id := 1, project_id := 1, cost_head := "Labour",
    budget_amount := 5000000, notes := none, created_at := "" }

/-- Failing input for C6/C7: one project, a Labour budget, and Labour + Fuel
costs totalling 12,000,000. -/
def dbSummary : DB :=
  { tablesCreated := true, projects := [projS], daily_logs := [],
    daily_activities := [], cost_entries := [costS1, costS2],
    budget_items := [budgetS], nextProjectId := 2, nextLogId := 1,
    nextActivityId := 1, nextCostId := 3, nextBudgetId := 2, now := "" }

/-- The same database with no contract value on the project. -/
def dbSummaryNoTcv : DB :=
  { dbSummary with projects := [projS0] }

theorem dbSummary_projects : dbSummary.projects = [projS] := rfl

theorem projS_id : projS.id = 1 := rfl

theorem projS_tcv : projS.total_contract_value = some 100000000 := rfl

theorem dbSummaryNoTcv_projects : dbSummaryNoTcv.projects = [projS0] := rfl

theorem projS0_id : projS0.id = 1 := rfl

theorem projS0_tcv : projS0.total_contract_value = none := rfl

theorem dedup_LLF : dedup ["Labour", "Labour", "Fuel"] = ["Labour", "Fuel"] := by decide

theorem fuel_ne_labour : (("Fuel" : String) = "Labour") = False := eq_false (by decide)

theorem labour_ne_fuel : (("Labour" : String) = "Fuel") = False := eq_false (by decide)

theorem dedup_LF : dedup ["Labour", "Fuel"] = ["Labour", "Fuel"] := by decide

theorem queryCostSum_dbS :
    queryCostSum dbSummary 1 none none = [("Labour", 4000000), ("Fuel", 8000000)] := by
  norm_num [queryCostSum, dbSummary, costS1, costS2, inWindow, dedup_LF,
    fuel_ne_labour, labour_ne_fuel, List.filter_cons, List.filter_nil,
    List.sum_cons, List.sum_nil]

theorem queryBudgets_dbS : queryBudgets dbSummary 1 = [("Labour", 5000000)] := by
  norm_num [queryBudgets, dbSummary, budgetS, List.filter_cons, List.filter_nil]

theorem queryBudgets_dbS0 : queryBudgets dbSummaryNoTcv 1 = [("Labour", 5000000)] := by
  norm_num [queryBudgets, dbSummaryNoTcv, dbSummary, budgetS,
    List.filter_cons, List.filter_nil]

theorem queryCostSum_dbS0 :
    queryCostSum dbSummaryNoTcv 1 none none = [("Labour", 4000000), ("Fuel", 8000000)] := by
  norm_num [queryCostSum, dbSummaryNoTcv, dbSummary, costS1, costS2, inWindow, dedup_LF,
    fuel_ne_labour, labour_ne_fuel, List.filter_cons, List.filter_nil,
    List.sum_cons, List.sum_nil]

theorem sort_heads_dbS :
    sortStrings (dedup ["Labour", "Labour", "Fuel"]) = ["Fuel", "Labour"] := by
  decide

theorem lookup_costS_Fuel :
    lookupOr [("Labour", 4000000), ("Fuel", 8000000)] "Fuel" 0 = 8000000 := by decide

theorem lookup_costS_Labour :
    lookupOr [("Labour", 4000000), ("Fuel", 8000000)] "Labour" 0 = 4000000 := by decide

theorem lookup_budgetS_Fuel : lookupOr [("Labour", 5000000)] "Fuel" 0 = 0 := by decide

theorem lookup_budgetS_Labour :
    lookupOr [("Labour", 5000000)] "Labour" 0 = 5000000 := by decide

/-- C6 (code bug): the shipped summary route never returns a summary — for the
existing project it raises `NameError` (`rows_to_dict` is undefined), an
unhandled 500. With the name repaired, the computation takes total_budget and
budget_by_head from all budget items whatever the requested window, and sets
variance_by_head[h] = windowed cost sum (0 when absent) minus budget amount (0
when absent) over the sorted union of heads — the head "Fuel", present only in
costs, gets variance = its cost sum - 0. -/
theorem c6_dashboard_variance :
    summary dbSummary 1 none none = .error (PyExc.nameError "rows_to_dict") ∧
    (∀ fd td : Option String,
      (summary_fixed (fun _ => none) dbSummary 1 fd td).map
          (fun s => (s.total_budget, s.budget_by_head)) =
        .ok (5000000, [("Labour", 5000000)])) ∧
    (summary_fixed (fun _ => none) dbSummary 1 none none).map
        (fun s => s.variance_by_head) =
      .ok [("Fuel", (8000000 : ℚ) - 0), ("Labour", (4000000 : ℚ) - 5000000)] := by
  refine ⟨rfl, ?_, ?_⟩
  · intro fd td
    norm_num [summary_fixed, Cursor.runQuery, dbSummary_projects, projS_id,
      List.find?, queryBudgets_dbS, Except.map, Bind.bind, Except.bind,
      List.sum_cons, List.sum_nil]
  · norm_num [summary_fixed, Cursor.runQuery, dbSummary_projects, projS_id,
      List.find?, queryCostSum_dbS, queryBudgets_dbS, sort_heads_dbS,
      lookup_costS_Fuel, lookup_costS_Labour, lookup_budgetS_Fuel,
      lookup_budgetS_Labour, Except.map, Bind.bind, Except.bind,
      List.sum_cons, List.sum_nil]

/-- C7 (code bug): the shipped summary route raises `NameError` instead of
responding; in the repaired computation the profit margin equals (contract
value - windowed total cost) / contract value * 100 whenever the contract
value is positive — 88 exactly at 100,000,000 vs 12,000,000 — and the field
is absent (None) when no positive contract value exists. -/
theorem c7_profit_margin :
    summary dbSummary 1 none none = .error (PyExc.nameError "rows_to_dict") ∧
    (summary_fixed (fun _ => none) dbSummary 1 none none).map
        (fun s => (s.total_cost, s.total_contract_value, s.current_profit_margin)) =
      .ok (12000000, some 100000000,
        some (((100000000 : ℚ) - 12000000) / 100000000 * 100)) ∧
    ((100000000 : ℚ) - 12000000) / 100000000 * 100 = 88 ∧
    (summary_fixed (fun _ => none) dbSummaryNoTcv 1 none none).map
        (fun s => s.current_profit_margin) = .ok none := by
  refine ⟨rfl, ?_, by norm_num, ?_⟩
  · norm_num [summary_fixed, Cursor.runQuery, dbSummary_projects, projS_id, projS_tcv,
      List.find?, queryCostSum_dbS, queryBudgets_dbS, Except.map, Bind.bind,
      Except.bind, List.sum_cons, List.sum_nil]
  · norm_num [summary_fixed, Cursor.runQuery, dbSummaryNoTcv_projects, projS0_id,
      projS0_tcv, List.find?, queryCostSum_dbS0, queryBudgets_dbS0, Except.map,
      Bind.bind, Except.bind, List.sum_cons, List.sum_nil]

/-! Projects listing and its mock fallback, main.py 13-30 and 182-196. -/

/-- The `Project` response schema (schemas.py 6-19): `ProjectCreate`'s fields
plus id and created_at. -/
structure Project where
  id : Nat
  name : String
  client : String
  location : String
  contract_no : Option String
  start_date : Option String
  end_date : Option String
  total_contract_value : Option Rat
  profit_margin_target : Rat
  created_at : String
deriving DecidableEq

/-- Pydantic validation `Project(**row)` from a complete row: the only
declared constraint that can fail on such a row is `name: str =
Field(min_length=2)` (schemas.py 7); keys the model does not declare
(`status`, `project_manager`, ...) are ignored by pydantic. -/
def projectOfRow (r : ProjectRow) : Except PyExc Project :=
  if r.name.length < 2 then .error PyExc.validationError
  else .ok { id := r.id, name := r.name, client := r.client, location := r.location,
             contract_no := r.contract_no, start_date := r.start_date,
             end_date := r.end_date, total_contract_value := r.total_contract_value,
             profit_margin_target := r.profit_margin_target, created_at := r.created_at }

/-- The one mock project dict (`MOCK_PROJECTS`, main.py 13-30), as a row. -/
def MOCK_PROJECTS : List ProjectRow :=
  [{ id := 1, name := "Railway ROB + Bridge Works (Pile Foundation & Sub-Structure)",
     client := "Indian Railways / PWD", location := "Maharashtra",
     contract_no := some "PWD-IR-ROB-001", start_date := some "2026-01-01",
     end_date := some "2026-12-31", total_contract_value := some 100000000,
     profit_margin_target := 12, created_at := "2026-01-01T00:00:00",
     status := some "Execution" }]

/-- Embeds `list_projects` (main.py 182-196): when the availability flag is
down, validate and return the mock list; otherwise run the query and convert
the rows, and on any exception in that `try` fall back to the mock list. The
`SELECT * FROM projects ORDER BY id DESC` execution is abstracted by its
outcome `q` (the fetched rows, or the persistence error it raised). -/
def list_projects (dbAvailable : Bool) (q : Except PyExc (List ProjectRow)) :
    Except PyExc (List Project) :=
  if !dbAvailable then MOCK_PROJECTS.mapM projectOfRow
  else
    match q >>= (fun rows => rows.mapM projectOfRow) with
    | .ok ps => .ok ps
    | .error _ => MOCK_PROJECTS.mapM projectOfRow

/-- The mock project record after validation. -/
def mockProjectResponse : Project :=
  { id := 1, name := "Railway ROB + Bridge Works (Pile Foundation & Sub-Structure)",
    client := "Indian Railways / PWD", location := "Maharashtra",
    contract_no := some "PWD-IR-ROB-001", start_date := some "2026-01-01",
    end_date := some "2026-12-31", total_contract_value := some 100000000,
    profit_margin_target := 12, created_at := "2026-01-01T00:00:00" }

/-- C9: whenever the availability flag is false, or the projects query raises
any persistence error, list-projects returns a successful response holding
exactly the one mock record with id 1, the railway-works name, and total
contract value 100000000.0. -/
theorem c9_projects_fallback :
    (∀ q : Except PyExc (List ProjectRow),
      list_projects false q = .ok [mockProjectResponse]) ∧
    (∀ e : PyExc, list_projects true (.error e) = .ok [mockProjectResponse]) ∧
    mockProjectResponse.id = 1 ∧
    mockProjectResponse.name = "Railway ROB + Bridge Works (Pile Foundation & Sub-Structure)" ∧
    mockProjectResponse.total_contract_value = some 100000000 := by
  refine ⟨fun q => rfl, fun e => rfl, rfl, rfl, rfl⟩

/-- C10 witness: `c10_db_cursor_atomic` at a failing body and at a body that
inserts via the budget upsert and completes. -/
theorem c10_db_cursor_atomic_witness :
    (db_cursor emptyDB (fun _ =>
        (Except.error (PyExc.dbError "disk I/O error") : Except PyExc (Unit × DB))) =
      (.error (PyExc.dbError "disk I/O error"), emptyDB,
        [DbEvent.openConn, DbEvent.closeConn])) ∧
    (db_cursor emptyDB (fun d =>
        (Except.ok ((), budgetUpsertTable d 1 "Steel" 100 none) : Except PyExc (Unit × DB))) =
      (.ok (), budgetUpsertTable emptyDB 1 "Steel" 100 none,
        [DbEvent.openConn, DbEvent.commitTx, DbEvent.closeConn])) :=
  ⟨((c10_db_cursor_atomic emptyDB _).1 _ rfl).1,
   ((c10_db_cursor_atomic emptyDB _).2 () (budgetUpsertTable emptyDB 1 "Steel" 100 none) rfl).1⟩

end CSC
